import Mathlib

/-!
Shallow embedding of the SatNOGS rotator gimbal controller
(`src/lib/Gimbal/Gimbal.cpp`, `src/lib/Gimbal/Gimbal.h`, `src/lib/NV.h`).

Modelling conventions:
* C `float`/`double` angle and scale arithmetic is modelled over `ℚ`
  (exact arithmetic; claims that could be sensitive to IEEE rounding carry
  hypotheses that keep the two semantics in agreement, e.g. non-zero
  divisors).
* `uint16_t` values (pulse widths, motor limits) are modelled as `ℤ`;
  conversions from wider or float values reduce modulo `2^16`, so all
  reachable values lie in `[0, 65535]`.
* The `int16_t` field `del_pos` is modelled as `ℤ` reduced into
  `[-32768, 32767]` by `toInt16` (two's-complement truncation of the
  `int` difference computed in `setMotorPosition`).
* The `uint32_t` clock (`millis()` and `last_update`) is modelled as `ℕ`
  reduced modulo `2^32` exactly where the C code computes in `uint32_t`.
* The `uint8_t` counter `init_step` increments modulo `2^8`.
* Hardware effects (`pwm->setPWM`) are modelled as an emitted command list;
  `delay`, serial debug printing and web-page status messages have no
  state effect and are omitted.
-/

namespace SatGimbal

/-- Milliseconds between `moveToAzEl` updates (`UPD_PERIOD`). -/
def UPD_PERIOD : ℕ := 500

/-- Settle threshold in degrees (`MAX_SETTLE = 0.5`). -/
def MAX_SETTLE : ℚ := 1/2

/-- Number of calibration steps (`N_INIT_STEPS`). -/
def N_INIT_STEPS : ℕ := 4

/-- Fraction of full range used by a calibration excursion (`CAL_FRAC = 0.333`). -/
def CAL_FRAC : ℚ := 333/1000

/-- Microseconds per PWM tick: `1e6 / SERVO_FREQ / 4096` with `SERVO_FREQ = 50`,
which is exactly `625/128` (exactly representable in `float`). -/
def US_PER_BIT : ℚ := 625/128

/-- One motor record (`Gimbal::MotorInfo`). `min`, `max`, `pos` are `uint16_t`,
`del_pos` is `int16_t`, the scales are `float`. -/
structure MotorInfo where
  az_scale : ℚ
  el_scale : ℚ
  min : ℤ
  max : ℤ
  pos : ℤ
  del_pos : ℤ
  atmin : Bool
  atmax : Bool
  servo_num : ℕ
  deriving DecidableEq, Repr

/-- The persisted calibration record (the fields of class `NV` used by
`Gimbal`). -/
structure NVRec where
  mot0min : ℤ
  mot0max : ℤ
  mot1min : ℤ
  mot1max : ℤ
  m0_azscale : ℚ
  m0_elscale : ℚ
  m1_azscale : ℚ
  m1_elscale : ℚ
  best_az_motor : ℕ
  init_step : ℕ
  deriving DecidableEq, Repr

/-- The controller state: the two `MotorInfo` records and the calibration /
settle-tracking fields of class `Gimbal`, together with the mirrored
persistent record `nv`. -/
structure Gimbal where
  motor0 : MotorInfo
  motor1 : MotorInfo
  gimbal_found : Bool
  init_step : ℕ
  best_azmotor : ℕ
  last_update : ℕ
  prevfast_az : ℚ
  prevfast_el : ℚ
  prevstop_az : ℚ
  prevstop_el : ℚ
  isCalibrating : Bool
  nv : NVRec
  deriving DecidableEq, Repr

/-- Array read `motor[i]`: index 0 yields motor 0, any other index yields
motor 1 (an index ≥ 2 is out of bounds in the C code; theorems that depend on
a motor-array read at `best_azmotor` carry the hypothesis `best_azmotor ≤ 1`). -/
def motorAt (s : Gimbal) (i : ℕ) : MotorInfo :=
  if i = 0 then s.motor0 else s.motor1

/-- Array write `motor[i] = m`. -/
def setMotorAt (s : Gimbal) (i : ℕ) (m : MotorInfo) : Gimbal :=
  if i = 0 then { s with motor0 := m } else { s with motor1 := m }

/-- C logical negation `!i` of a motor index: `!0 = 1`, `!x = 0` for `x ≠ 0`. -/
def notIdx (i : ℕ) : ℕ :=
  if i = 0 then 1 else 0

/-- Conversion of an `int` value to `int16_t` (two's-complement truncation,
the behaviour of the target platform). -/
def toInt16 (z : ℤ) : ℤ :=
  (z + 32768) % 65536 - 32768

/-- Conversion of a float expression to a `uint16_t` argument: truncation
toward zero reduced mod `2^16` for the nonnegative values the code computes.
A negative or huge argument is undefined behaviour in C; it is determinized
as `⌊q⌋ % 2^16` here and no claim relies on such a case. -/
def toU16 (q : ℚ) : ℤ :=
  ⌊q⌋ % 65536

/-- Conversion of an `int` (e.g. an `atoi` result) to `uint16_t`. -/
def toU16z (z : ℤ) : ℤ :=
  z % 65536

/-- A physical actuator command: servo number and 12-bit tick count, as sent
by `pwm->setPWM(servo_num, 0, pos / US_PER_BIT)`. -/
abbrev Cmd := ℕ × ℤ

/-- Tick count for a pulse width: the float quotient `pos / US_PER_BIT`
truncated into the `setPWM` `uint16_t` parameter. -/
def usTicks (pos : ℤ) : ℤ :=
  ⌊(pos : ℚ) / US_PER_BIT⌋ % 65536

/-- C `fabs` on the exactly-modelled float values. -/
def fabs (q : ℚ) : ℚ :=
  if q < 0 then -q else q

/-- Shortest signed circular azimuth distance (`Gimbal::azDist`). -/
def azDist (f t : ℚ) : ℚ :=
  let d := t - f
  if d < -180 then d + 360
  else if d > 180 then d - 360
  else d

/-- The C conversion of a condition to a `bool` value. -/
def cBool (P : Prop) [Decidable P] : Bool :=
  if P then true else false

/-- Predicate `Gimbal::calibrated()`: `init_step >= N_INIT_STEPS`. -/
def calibrated (s : Gimbal) : Bool :=
  cBool (N_INIT_STEPS ≤ s.init_step)

/-- Raw motor command with clamping (`Gimbal::setMotorPosition`). Returns the
new controller state and the list of physical commands issued (empty when the
motor index is out of range or the PWM hardware was not found). -/
def setMotorPosition (s : Gimbal) (motn : ℕ) (newpos : ℤ) : Gimbal × List Cmd :=
  if 2 ≤ motn ∨ s.gimbal_found = false then (s, [])
  else
    let m := motorAt s motn
    let bmin : Bool := cBool (newpos ≤ m.min)
    let np1 : ℤ := if bmin then m.min else newpos
    let bmax : Bool := cBool (m.max ≤ np1)
    let np2 : ℤ := if bmax then m.max else np1
    let m' : MotorInfo :=
      { m with
        atmin := bmin
        atmax := bmax
        del_pos := toInt16 (np2 - m.pos)
        pos := np2 }
    (setMotorAt s motn m', [(m'.servo_num, usTicks np2)])

/-- The clamped pulse width `setMotorPosition` stores for an in-range motor:
first raised to `min` if `newpos ≤ min`, then lowered to `max` if the result
is `≥ max`. -/
def clampPos (m : MotorInfo) (newpos : ℤ) : ℤ :=
  let np1 := if newpos ≤ m.min then m.min else newpos
  if m.max ≤ np1 then m.max else np1

/-- Copy the calibration into the persistent record (`Gimbal::saveCalibration`;
the `EEPROM.put/commit` step only makes the mirrored record durable). -/
def saveCalibration (s : Gimbal) : Gimbal :=
  { s with
    nv :=
      { s.nv with
        best_az_motor := s.best_azmotor
        m0_azscale := s.motor0.az_scale
        m0_elscale := s.motor0.el_scale
        m1_azscale := s.motor1.az_scale
        m1_elscale := s.motor1.el_scale
        init_step := s.init_step } }

/-- Install the persisted calibration (`Gimbal::installCalibration`).

The C source's guard is
`fabs(motor[best_azmotor].az_scale > 50) || fabs(motor[!best_azmotor].el_scale > 50) || init_step != 4 || best_azmotor < 0 || best_azmotor > 1`.
Because `fabs` is applied to the boolean comparison result (0.0 or 1.0),
the first two disjuncts are equivalent to the signed comparisons
`az_scale > 50` and `el_scale > 50` — no absolute value of the scale is
taken. `best_azmotor < 0` is always false for the `uint8_t` field and is
omitted. -/
def installCalibration (s : Gimbal) : Gimbal :=
  let s1 :=
    { s with
      init_step := s.nv.init_step
      best_azmotor := s.nv.best_az_motor
      motor0 := { s.motor0 with az_scale := s.nv.m0_azscale, el_scale := s.nv.m0_elscale }
      motor1 := { s.motor1 with az_scale := s.nv.m1_azscale, el_scale := s.nv.m1_elscale } }
  if 50 < (motorAt s1 s1.best_azmotor).az_scale
      ∨ 50 < (motorAt s1 (notIdx s1.best_azmotor)).el_scale
      ∨ s1.init_step ≠ 4
      ∨ 1 < s1.best_azmotor then
    { s1 with init_step := 0 }
  else s1

/-- The azimuth half of `Gimbal::reCal` (`MIN_ANGLE = 30`,
`MAX_CHANGE = 0.1`): tweak the designated azimuth motor's `az_scale` when the
azimuth motion since the last stable reading is large enough and the
candidate scale `del_pos / az_move` is a small enough fractional change. -/
def reCalAz (s : Gimbal) (az_s : ℚ) : Gimbal :=
  let bi := s.best_azmotor
  let azm := motorAt s bi
  let az_move := azDist s.prevstop_az az_s
  if 30 ≤ fabs az_move then
    let newAz := (azm.del_pos : ℚ) / az_move
    if fabs ((newAz - azm.az_scale) / azm.az_scale) < 1/10 then
      setMotorAt s bi { azm with az_scale := newAz }
    else s
  else s

/-- The elevation half of `Gimbal::reCal`: the same rule applied to the other
motor's `el_scale` using the elevation motion. -/
def reCalEl (s : Gimbal) (el_s : ℚ) : Gimbal :=
  let ei := notIdx s.best_azmotor
  let elm := motorAt s ei
  let el_move := el_s - s.prevstop_el
  if 30 ≤ fabs el_move then
    let newEl := (elm.del_pos : ℚ) / el_move
    if fabs ((newEl - elm.el_scale) / elm.el_scale) < 1/10 then
      setMotorAt s ei { elm with el_scale := newEl }
    else s
  else s

/-- Online recalibration during a settled tracking tick (`Gimbal::reCal`).
The C body runs the azimuth check and then the elevation check on the same
object; the two halves touch disjoint motor slots and the elevation half
reads only fields (`best_azmotor`, `prevstop_el`, the other motor's record)
the azimuth half never writes, so the sequential body is exactly this
composition. -/
def reCal (s : Gimbal) (az_s el_s : ℚ) : Gimbal :=
  reCalEl (reCalAz s az_s) el_s

/-- Seek-target control law (`Gimbal::seekTarget`): recalibrate, then command
the azimuth motor (with limit-avoidance swing-back) and the elevation motor
(no limit avoidance). -/
def seekTarget (s : Gimbal) (az_t el_t az_s el_s : ℚ) : Gimbal × List Cmd :=
  let az_err := azDist az_s az_t
  let el_err := el_t - el_s
  let s1 := reCal s az_s el_s
  let bi := s1.best_azmotor
  let azm := motorAt s1 bi
  let p1 :=
    if azm.atmin then
      setMotorPosition s1 bi (toU16 ((azm.min : ℚ) + 9/10 * ((azm.max : ℚ) - (azm.min : ℚ))))
    else if azm.atmax then
      setMotorPosition s1 bi (toU16 ((azm.min : ℚ) + 1/10 * ((azm.max : ℚ) - (azm.min : ℚ))))
    else
      setMotorPosition s1 bi (toU16 ((azm.pos : ℚ) + az_err * azm.az_scale))
  let ei := notIdx bi
  let elm := motorAt p1.1 ei
  let p2 := setMotorPosition p1.1 ei (toU16 ((elm.pos : ℚ) + el_err * elm.el_scale))
  (p2.1, p1.2 ++ p2.2)

/-- The `uint16_t` range `max - min` computed at the top of `Gimbal::calibrate`
(int subtraction stored back into `uint16_t`, hence reduced mod `2^16`). -/
def u16range (m : MotorInfo) : ℤ :=
  (m.max - m.min) % 65536

/-- One step of the initial calibration sequence (`Gimbal::calibrate`).
`init_step` is post-incremented (mod `2^8`) and the branch is selected by its
old value; the default branch only reports a bug message. -/
def calibrate (s : Gimbal) (az_s el_s : ℚ) : Gimbal × List Cmd :=
  let range0 := u16range s.motor0
  let range1 := u16range s.motor1
  let step := s.init_step
  let s1 := { s with isCalibrating := true, init_step := (s.init_step + 1) % 256 }
  if step = 0 then
    let p1 := setMotorPosition s1 0
      (toU16 ((s1.motor0.min : ℚ) + (range0 : ℚ) * (1 - CAL_FRAC) / 2))
    let p2 := setMotorPosition p1.1 1
      (toU16 ((p1.1.motor1.min : ℚ) + (range1 : ℚ) * (1 - CAL_FRAC) / 2))
    (p2.1, p1.2 ++ p2.2)
  else if step = 1 then
    setMotorPosition s1 0 (toU16 ((s1.motor0.pos : ℚ) + (range0 : ℚ) * CAL_FRAC))
  else if step = 2 then
    let s2 :=
      { s1 with
        motor0 :=
          { s1.motor0 with
            az_scale := (range0 : ℚ) * CAL_FRAC / azDist s1.prevstop_az az_s
            el_scale := (range0 : ℚ) * CAL_FRAC / (el_s - s1.prevstop_el) } }
    setMotorPosition s2 1 (toU16 ((s2.motor1.pos : ℚ) + (range1 : ℚ) * CAL_FRAC))
  else if step = 3 then
    let s2 :=
      { s1 with
        motor1 :=
          { s1.motor1 with
            az_scale := (range1 : ℚ) * CAL_FRAC / azDist s1.prevstop_az az_s
            el_scale := (range1 : ℚ) * CAL_FRAC / (el_s - s1.prevstop_el) } }
    let s3 :=
      { s2 with
        best_azmotor :=
          if fabs s2.motor0.az_scale < fabs s2.motor1.az_scale then 0 else 1 }
    ({ saveCalibration s3 with isCalibrating := false }, [])
  else (s1, [])

/-- One control tick (`Gimbal::moveToAzEl`). `now` is the `millis()` value
(reduced mod `2^32`); `az_s`, `el_s` are the sensor azimuth/elevation the
blocking `sensor->readAzElT()` refresh delivers on this tick. Returns the new
state and the physical commands issued. -/
def moveToAzEl (s : Gimbal) (now : ℕ) (az_t el_t az_s el_s : ℚ) : Gimbal × List Cmd :=
  let nowm := now % 2 ^ 32
  if nowm < (s.last_update + UPD_PERIOD) % 2 ^ 32 then (s, [])
  else
    let s1 := { s with last_update := nowm }
    if az_s < 0 ∨ 360 < az_s ∨ el_s < 0 ∨ 90 < el_s then (s1, [])
    else
      let p :=
        if fabs (azDist s1.prevfast_az az_s) < MAX_SETTLE
            ∧ fabs (el_s - s1.prevfast_el) < MAX_SETTLE then
          let q :=
            if calibrated s1 then seekTarget s1 az_t el_t az_s el_s
            else calibrate s1 az_s el_s
          ({ q.1 with prevstop_az := az_s, prevstop_el := el_s }, q.2)
        else (s1, [])
      ({ p.1 with prevfast_az := az_s, prevfast_el := el_s }, p.2)

/-- Operator override dispatch (`Gimbal::overrideValue`) restricted to the six
direct value edits; `value` is the `atoi` result. The `G_Save` branch (a full
blocking calibration run driven by repeated `moveToAzEl` ticks and real time)
is outside this pure model and is mapped, like unrecognized names, to
"no state change"; no claim concerns it. Returns the new state, the commands
issued, and the handled flag. -/
def overrideValue (s : Gimbal) (name : String) (value : ℤ) : Gimbal × List Cmd × Bool :=
  if name = "G_Mot1Pos" then
    if s.gimbal_found then
      let p := setMotorPosition s 0 (toU16z value)
      (p.1, p.2, true)
    else (s, [], true)
  else if name = "G_Mot1Min" then
    if s.gimbal_found then
      ({ s with motor0 := { s.motor0 with min := toU16z value }
                nv := { s.nv with mot0min := toU16z value } }, [], true)
    else (s, [], true)
  else if name = "G_Mot1Max" then
    if s.gimbal_found then
      ({ s with motor0 := { s.motor0 with max := toU16z value }
                nv := { s.nv with mot0max := toU16z value } }, [], true)
    else (s, [], true)
  else if name = "G_Mot2Pos" then
    if s.gimbal_found then
      let p := setMotorPosition s 1 (toU16z value)
      (p.1, p.2, true)
    else (s, [], true)
  else if name = "G_Mot2Min" then
    if s.gimbal_found then
      ({ s with motor1 := { s.motor1 with min := toU16z value }
                nv := { s.nv with mot1min := toU16z value } }, [], true)
    else (s, [], true)
  else if name = "G_Mot2Max" then
    if s.gimbal_found then
      ({ s with motor1 := { s.motor1 with max := toU16z value }
                nv := { s.nv with mot1max := toU16z value } }, [], true)
    else (s, [], true)
  else (s, [], false)

/-- A concrete motor record used by the concrete evaluations below. -/
def mkMotor (sn : ℕ) (mn mx ps : ℤ) (azs els : ℚ) : MotorInfo :=
  { az_scale := azs
    el_scale := els
    min := mn
    max := mx
    pos := ps
    del_pos := 0
    atmin := false
    atmax := false
    servo_num := sn }

/-- A concrete persisted record matching `baseGimbal`. -/
def baseNV : NVRec :=
  { mot0min := 1000
    mot0max := 2000
    mot1min := 1000
    mot1max := 2000
    m0_azscale := 10
    m0_elscale := 10
    m1_azscale := 10
    m1_elscale := 10
    best_az_motor := 0
    init_step := 4 }

/-- A concrete calibrated controller state used by the concrete evaluations
below: hardware present, motor 0 designated for azimuth, both motors at
1500 us inside limits [1000, 2000], scales 10 us/degree, previous readings
az = 10, el = 45. -/
def baseGimbal : Gimbal :=
  { motor0 := mkMotor 0 1000 2000 1500 10 10
    motor1 := mkMotor 1 1000 2000 1500 10 10
    gimbal_found := true
    init_step := 4
    best_azmotor := 0
    last_update := 0
    prevfast_az := 10
    prevfast_el := 45
    prevstop_az := 10
    prevstop_el := 45
    isCalibrating := false
    nv := baseNV }

/-- A persisted record storing an azimuth scale of −60 (magnitude above the
sanity bound 50) for the designated azimuth motor, with `step = 4` and
`azAxisIndex = 0`. -/
def negScaleNV : NVRec :=
  { baseNV with m0_azscale := -60 }

/-- Controller state about to install `negScaleNV`. -/
def negScaleGimbal : Gimbal :=
  { baseGimbal with nv := negScaleNV }

/-- State whose motor 0 has degenerate limits `min = max = 100`. -/
def degenerateLimitsGimbal : Gimbal :=
  { baseGimbal with motor0 := mkMotor 0 100 100 100 10 10 }

/-- State whose motor 0 has the wide limits [0, 40000] and sits at 0. -/
def wideRangeGimbal : Gimbal :=
  { baseGimbal with motor0 := mkMotor 0 0 40000 0 10 10 }

/-- State about to run the final calibration step: `init_step = 3`, previous
stable reading at azimuth 0, elevation 0. -/
def preCalGimbal : Gimbal :=
  { baseGimbal with init_step := 3, prevstop_az := 0, prevstop_el := 0 }

section Helpers

theorem motorAt_setMotorAt_self (s : Gimbal) (i : ℕ) (m : MotorInfo) :
    motorAt (setMotorAt s i m) i = m := by
  unfold motorAt setMotorAt
  split_ifs <;> rfl

theorem motorAt_setMotorAt_notIdx (s : Gimbal) (i : ℕ) (m : MotorInfo) :
    motorAt (setMotorAt s i m) (notIdx i) = motorAt s (notIdx i) := by
  unfold motorAt setMotorAt notIdx
  split_ifs <;> simp_all

theorem motorAt_setMotorAt_of_notIdx (s : Gimbal) (i : ℕ) (m : MotorInfo) :
    motorAt (setMotorAt s (notIdx i) m) i = motorAt s i := by
  unfold motorAt setMotorAt notIdx
  split_ifs <;> simp_all

theorem notIdx_notIdx (i : ℕ) (h : i ≤ 1) : notIdx (notIdx i) = i := by
  interval_cases i <;> rfl

theorem notIdx_le_one (i : ℕ) : notIdx i ≤ 1 := by
  unfold notIdx
  split_ifs <;> omega

theorem cBool_eq_true (P : Prop) [Decidable P] : (cBool P = true) = P := by
  by_cases h : P <;> simp [cBool, h]

theorem cBool_eq_false (P : Prop) [Decidable P] : (cBool P = false) = ¬ P := by
  by_cases h : P <;> simp [cBool, h]

theorem if_cBool {α : Sort _} (P : Prop) [Decidable P] (a b : α) :
    (if cBool P then a else b) = if P then a else b := by
  by_cases h : P <;> simp [cBool, h]

end Helpers

/-- C2 counterexample: at `from = 180`, `to = 0` — both in `[0, 360)` — the
code returns exactly `-180`, which lies outside the claimed half-open
interval `(-180, 180]`. -/
theorem azDist_claimed_range_counterexample :
    (0:ℚ) ≤ 180 ∧ (180:ℚ) < 360 ∧ (0:ℚ) ≤ 0 ∧ (0:ℚ) < 360
    ∧ azDist 180 0 = -180 ∧ ¬ (-180 < azDist 180 0) := by
  norm_num [azDist]

/-- C2 (amended): for all azimuth values `a`, `b` in `[0, 360)`, `azDist a b`
lies in the closed interval `[-180, 180]` (the value `-180` is attained, e.g.
at `azDist 180 0`), and the spec's examples hold: `azDist 350 10 = 20`,
`azDist 10 350 = -20`, `azDist 0 180 = 180`. -/
theorem azDist_range_and_examples :
    (∀ a b : ℚ, 0 ≤ a → a < 360 → 0 ≤ b → b < 360 →
      -180 ≤ azDist a b ∧ azDist a b ≤ 180)
    ∧ azDist 350 10 = 20 ∧ azDist 10 350 = -20 ∧ azDist 0 180 = 180 := by
  refine ⟨?_, by norm_num [azDist], by norm_num [azDist], by norm_num [azDist]⟩
  intro a b ha ha' hb hb'
  unfold azDist
  dsimp only
  split_ifs <;> constructor <;> linarith

/-- C2 witness: the range bound evaluated at the concrete pair (350, 10). -/
theorem azDist_range_and_examples_witness :
    -180 ≤ azDist 350 10 ∧ azDist 350 10 ≤ 180 :=
  azDist_range_and_examples.1 350 10 (by norm_num) (by norm_num)
    (by norm_num) (by norm_num)

/-- C10: `setMotorPosition` with an out-of-range motor index (`motn ≥ 2`), or
with the PWM hardware absent, is a silent total no-op: the state — in
particular both motor records — is returned unchanged and no actuator
command is issued. -/
theorem setMotorPosition_out_of_range_noop (s : Gimbal) (motn : ℕ) (newpos : ℤ)
    (h : 2 ≤ motn ∨ s.gimbal_found = false) :
    setMotorPosition s motn newpos = (s, []) := by
  unfold setMotorPosition
  rw [if_pos h]

/-- C10 witness: motor index 2 on the concrete base state. -/
theorem setMotorPosition_out_of_range_noop_witness :
    setMotorPosition baseGimbal 2 1234 = (baseGimbal, []) :=
  setMotorPosition_out_of_range_noop baseGimbal 2 1234 (Or.inl (by norm_num))

/-- C1 (evaluation at the failing input): `installCalibration` on a persisted
record whose designated azimuth scale is `-60` — magnitude 60, above the
sanity bound 50 — with stored step 4 and axis index 0 accepts the record and
leaves `init_step = 4`. The source applies `fabs` to the boolean comparison
(`fabs(az_scale > 50)`) instead of to the scale, so any negative scale passes
the check; the claim (and the spec) require the magnitude check, which would
force `init_step = 0` here. -/
theorem installCalibration_accepts_minus60_scale :
    negScaleGimbal.nv.m0_azscale = -60
    ∧ 50 < fabs negScaleGimbal.nv.m0_azscale
    ∧ negScaleGimbal.nv.init_step = 4
    ∧ negScaleGimbal.nv.best_az_motor = 0
    ∧ (installCalibration negScaleGimbal).init_step = 4
    ∧ (installCalibration negScaleGimbal).motor0.az_scale = -60 := by
  norm_num [installCalibration, negScaleGimbal, negScaleNV, baseNV, baseGimbal,
    mkMotor, motorAt, notIdx, fabs]

/-- C4 counterexample: two concrete refutations of the claim as stated.
With degenerate limits `min = max = 100` (allowed by the claim's `min ≤ max`),
a request of 50 — below `min` — ends with `atmax = true`, not `false`.
With limits `[0, 40000]` and previous `pos = 0`, a request of 50000 clamps to
40000 but stores `del_pos = -25536` (the `int16_t` truncation of 40000), not
the claimed `clamped - previous = 40000`. -/
theorem setMotorPosition_claim_counterexample :
    (degenerateLimitsGimbal.motor0.min ≤ degenerateLimitsGimbal.motor0.max
      ∧ (50:ℤ) < degenerateLimitsGimbal.motor0.min
      ∧ (setMotorPosition degenerateLimitsGimbal 0 50).1.motor0.atmax = true)
    ∧ (wideRangeGimbal.motor0.min ≤ wideRangeGimbal.motor0.max
      ∧ wideRangeGimbal.motor0.max < 50000
      ∧ wideRangeGimbal.motor0.pos = 0
      ∧ (setMotorPosition wideRangeGimbal 0 50000).1.motor0.pos = 40000
      ∧ (setMotorPosition wideRangeGimbal 0 50000).1.motor0.del_pos = -25536
      ∧ ((-25536 : ℤ) ≠ 40000 - 0)) := by
  norm_num [setMotorPosition, degenerateLimitsGimbal, wideRangeGimbal, baseGimbal,
    baseNV, mkMotor, motorAt, setMotorAt, toInt16, cBool_eq_true, cBool_eq_false, if_cBool]

/-- C4 (amended): for a motor with strictly ordered limits `min < max` and
hardware present, a request above `max` yields `pos = max`, `atmax = true`,
`atmin = false`; a request below `min` yields `pos = min`, `atmin = true`,
`atmax = false`; and in every case the stored `pos` is the clamped value and
`del_pos` is the `int16_t` truncation of `clamped − previous pos` (equal to
the true difference only when it fits in `int16_t`). -/
theorem setMotorPosition_clamps (s : Gimbal) (motn : ℕ) (newpos : ℤ)
    (hm : motn ≤ 1) (hg : s.gimbal_found = true)
    (hlt : (motorAt s motn).min < (motorAt s motn).max) :
    ((motorAt s motn).max < newpos →
      (motorAt (setMotorPosition s motn newpos).1 motn).pos = (motorAt s motn).max
      ∧ (motorAt (setMotorPosition s motn newpos).1 motn).atmax = true
      ∧ (motorAt (setMotorPosition s motn newpos).1 motn).atmin = false)
    ∧ (newpos < (motorAt s motn).min →
      (motorAt (setMotorPosition s motn newpos).1 motn).pos = (motorAt s motn).min
      ∧ (motorAt (setMotorPosition s motn newpos).1 motn).atmin = true
      ∧ (motorAt (setMotorPosition s motn newpos).1 motn).atmax = false)
    ∧ (motorAt (setMotorPosition s motn newpos).1 motn).pos
        = clampPos (motorAt s motn) newpos
    ∧ (motorAt (setMotorPosition s motn newpos).1 motn).del_pos
        = toInt16 (clampPos (motorAt s motn) newpos - (motorAt s motn).pos) := by
  have h2 : ¬ (2 ≤ motn ∨ s.gimbal_found = false) := by
    push_neg
    exact ⟨by omega, by simp [hg]⟩
  simp only [setMotorPosition, if_neg h2, motorAt_setMotorAt_self, clampPos]
  refine ⟨?_, ?_, ?_, ?_⟩
  · intro hgt
    simp only [cBool_eq_true, cBool_eq_false, if_cBool]
    split_ifs <;> simp_all <;> omega
  · intro hlt2
    simp only [cBool_eq_true, cBool_eq_false, if_cBool]
    split_ifs <;> simp_all <;> omega
  · simp only [if_cBool]
  · simp only [if_cBool]

/-- C4 witness: the amended statement evaluated at `wideRangeGimbal`, motor 0,
request 50000. -/
theorem setMotorPosition_clamps_witness :
    ((motorAt wideRangeGimbal 0).max < 50000 →
      (motorAt (setMotorPosition wideRangeGimbal 0 50000).1 0).pos
          = (motorAt wideRangeGimbal 0).max
      ∧ (motorAt (setMotorPosition wideRangeGimbal 0 50000).1 0).atmax = true
      ∧ (motorAt (setMotorPosition wideRangeGimbal 0 50000).1 0).atmin = false)
    ∧ ((50000:ℤ) < (motorAt wideRangeGimbal 0).min →
      (motorAt (setMotorPosition wideRangeGimbal 0 50000).1 0).pos
          = (motorAt wideRangeGimbal 0).min
      ∧ (motorAt (setMotorPosition wideRangeGimbal 0 50000).1 0).atmin = true
      ∧ (motorAt (setMotorPosition wideRangeGimbal 0 50000).1 0).atmax = false)
    ∧ (motorAt (setMotorPosition wideRangeGimbal 0 50000).1 0).pos
        = clampPos (motorAt wideRangeGimbal 0) 50000
    ∧ (motorAt (setMotorPosition wideRangeGimbal 0 50000).1 0).del_pos
        = toInt16 (clampPos (motorAt wideRangeGimbal 0) 50000
            - (motorAt wideRangeGimbal 0).pos) :=
  setMotorPosition_clamps wideRangeGimbal 0 50000 (by norm_num) rfl
    (by norm_num [motorAt, wideRangeGimbal, baseGimbal, mkMotor])

/-- C9 counterexample: on the concrete base state — where `min ≤ pos ≤ max`
holds with `pos = 1500` — the operator override `G_Mot1Min = 1700` raises
motor 0's `min` above its unchanged `pos`, so the claimed invariant
`min ≤ pos` is violated immediately after the override. -/
theorem overrideValue_min_edit_breaks_invariant :
    baseGimbal.motor0.min ≤ baseGimbal.motor0.pos
    ∧ baseGimbal.motor0.pos ≤ baseGimbal.motor0.max
    ∧ (overrideValue baseGimbal "G_Mot1Min" 1700).1.motor0.min = 1700
    ∧ (overrideValue baseGimbal "G_Mot1Min" 1700).1.motor0.pos = 1500
    ∧ ¬ ((overrideValue baseGimbal "G_Mot1Min" 1700).1.motor0.min
          ≤ (overrideValue baseGimbal "G_Mot1Min" 1700).1.motor0.pos) := by
  simp [overrideValue, baseGimbal, baseNV, mkMotor, toU16z]

/-- C9 (amended): every `setMotorPosition` call on an in-range motor with
hardware present and `min ≤ max` establishes `min ≤ pos ≤ max`; but an
operator override editing a motor's `min` or `max` does not re-clamp `pos`,
so it can break the invariant until the next motor command (see the
counterexample). -/
theorem setMotorPosition_establishes_limits (s : Gimbal) (motn : ℕ) (newpos : ℤ)
    (hm : motn ≤ 1) (hg : s.gimbal_found = true)
    (hmm : (motorAt s motn).min ≤ (motorAt s motn).max) :
    (motorAt (setMotorPosition s motn newpos).1 motn).min
      ≤ (motorAt (setMotorPosition s motn newpos).1 motn).pos
    ∧ (motorAt (setMotorPosition s motn newpos).1 motn).pos
      ≤ (motorAt (setMotorPosition s motn newpos).1 motn).max := by
  have h2 : ¬ (2 ≤ motn ∨ s.gimbal_found = false) := by
    push_neg
    exact ⟨by omega, by simp [hg]⟩
  simp only [setMotorPosition, if_neg h2, motorAt_setMotorAt_self]
  simp only [if_cBool]
  split_ifs <;> constructor <;> omega

/-- C9 witness: the invariant-establishing statement evaluated at the base
state, motor 0, request 1700. -/
theorem setMotorPosition_establishes_limits_witness :
    (motorAt (setMotorPosition baseGimbal 0 1700).1 0).min
      ≤ (motorAt (setMotorPosition baseGimbal 0 1700).1 0).pos
    ∧ (motorAt (setMotorPosition baseGimbal 0 1700).1 0).pos
      ≤ (motorAt (setMotorPosition baseGimbal 0 1700).1 0).max :=
  setMotorPosition_establishes_limits baseGimbal 0 1700 (by norm_num) rfl
    (by norm_num [motorAt, baseGimbal, mkMotor])

/-- C3 counterexample: a tick that passes the rate limit and reads the
out-of-domain azimuth 400 is abandoned, but it does modify controller state:
`last_update` advances from 0 to the tick time 1000. -/
theorem moveToAzEl_bad_reading_changes_state :
    ¬ (1000 % 2 ^ 32 < (baseGimbal.last_update + UPD_PERIOD) % 2 ^ 32)
    ∧ (360 : ℚ) < 400
    ∧ baseGimbal.last_update = 0
    ∧ (moveToAzEl baseGimbal 1000 10 45 400 45).1.last_update = 1000 := by
  norm_num [moveToAzEl, UPD_PERIOD, baseGimbal, baseNV, mkMotor]

/-- C3 (amended): when a tick passes the rate limit and the freshly read
sensor azimuth is outside `[0, 360]` or the elevation outside `[0, 90]`, the
tick is abandoned with no motor command and no change to any controller state
except `last_update`, which has already been set to the tick time before the
sensor was read. -/
theorem moveToAzEl_bad_reading (s : Gimbal) (now : ℕ) (az_t el_t az_s el_s : ℚ)
    (hrate : ¬ now % 2 ^ 32 < (s.last_update + UPD_PERIOD) % 2 ^ 32)
    (hbad : az_s < 0 ∨ 360 < az_s ∨ el_s < 0 ∨ 90 < el_s) :
    moveToAzEl s now az_t el_t az_s el_s = ({ s with last_update := now % 2 ^ 32 }, []) := by
  simp only [moveToAzEl, if_neg hrate, if_pos hbad]

/-- C3 witness: the amended statement evaluated on the base state at tick
time 1000 with the out-of-domain azimuth reading 400. -/
theorem moveToAzEl_bad_reading_witness :
    moveToAzEl baseGimbal 1000 10 45 400 45
      = ({ baseGimbal with last_update := 1000 % 2 ^ 32 }, []) :=
  moveToAzEl_bad_reading baseGimbal 1000 10 45 400 45
    (by norm_num [baseGimbal, UPD_PERIOD, baseNV, mkMotor])
    (Or.inr (Or.inl (by norm_num)))

set_option maxRecDepth 8192 in
/-- C8 (evaluation at the failing input): near the `uint32_t` wrap of the
millisecond clock, the rate limit fails. Starting from the base state
(`last_update = 0`), a call at millis = 4294967196 acts and issues two
physical commands; a second call only 50 ms later — less than
`UPD_PERIOD = 500` — ALSO acts and issues two physical commands, because
`last_update + UPD_PERIOD` overflows `uint32_t` to 400 and the guard
`now < last_update + UPD_PERIOD` is false. The claim (and the code's own
comment "only update every UPD_PERIOD") says the second call must be a
no-op. -/
theorem moveToAzEl_rate_limit_wrap :
    (moveToAzEl baseGimbal 4294967196 10 45 10 45).2 = [(0, 307), (1, 307)]
    ∧ (moveToAzEl (moveToAzEl baseGimbal 4294967196 10 45 10 45).1
        4294967246 10 45 10 45).2 = [(0, 307), (1, 307)]
    ∧ 4294967246 - 4294967196 < UPD_PERIOD := by
  norm_num [moveToAzEl, UPD_PERIOD, baseGimbal, baseNV, mkMotor, seekTarget, reCal,
    reCalAz, reCalEl, setMotorPosition, motorAt, setMotorAt, notIdx, calibrated, N_INIT_STEPS,
    MAX_SETTLE, fabs, azDist, toU16, usTicks, US_PER_BIT, toInt16,
    cBool_eq_true, cBool_eq_false, if_cBool]

/-- C7: at the final calibration step (`init_step = 3` on entry), the
designated azimuth axis index is set to 0 exactly when motor 0's azimuth
scale has smaller magnitude than motor 1's and to 1 otherwise; the step
counter becomes 4, so `calibrated()` returns true; and the full calibration
record (axis index, all four scales, step) is copied into the persistent
record. The non-zero-motion hypotheses keep the exact-rational scale
computation faithful to the float division of the source. -/
theorem calibrate_final_step (s : Gimbal) (az_s el_s : ℚ)
    (hstep : s.init_step = 3)
    (_hd1 : azDist s.prevstop_az az_s ≠ 0)
    (_hd2 : el_s - s.prevstop_el ≠ 0) :
    ((calibrate s az_s el_s).1.best_azmotor
        = if fabs (calibrate s az_s el_s).1.motor0.az_scale
              < fabs (calibrate s az_s el_s).1.motor1.az_scale then 0 else 1)
    ∧ (calibrate s az_s el_s).1.init_step = 4
    ∧ calibrated (calibrate s az_s el_s).1 = true
    ∧ (calibrate s az_s el_s).1.nv.best_az_motor = (calibrate s az_s el_s).1.best_azmotor
    ∧ (calibrate s az_s el_s).1.nv.init_step = 4
    ∧ (calibrate s az_s el_s).1.nv.m0_azscale = (calibrate s az_s el_s).1.motor0.az_scale
    ∧ (calibrate s az_s el_s).1.nv.m0_elscale = (calibrate s az_s el_s).1.motor0.el_scale
    ∧ (calibrate s az_s el_s).1.nv.m1_azscale = (calibrate s az_s el_s).1.motor1.az_scale
    ∧ (calibrate s az_s el_s).1.nv.m1_elscale = (calibrate s az_s el_s).1.motor1.el_scale := by
  norm_num [calibrate, hstep, saveCalibration, calibrated, N_INIT_STEPS, cBool_eq_true]

/-- C7 witness: the final calibration step evaluated on the concrete state
`preCalGimbal` with the settled reading az = 40, el = 10. -/
theorem calibrate_final_step_witness :
    ((calibrate preCalGimbal 40 10).1.best_azmotor
        = if fabs (calibrate preCalGimbal 40 10).1.motor0.az_scale
              < fabs (calibrate preCalGimbal 40 10).1.motor1.az_scale then 0 else 1)
    ∧ (calibrate preCalGimbal 40 10).1.init_step = 4
    ∧ calibrated (calibrate preCalGimbal 40 10).1 = true
    ∧ (calibrate preCalGimbal 40 10).1.nv.best_az_motor
        = (calibrate preCalGimbal 40 10).1.best_azmotor
    ∧ (calibrate preCalGimbal 40 10).1.nv.init_step = 4
    ∧ (calibrate preCalGimbal 40 10).1.nv.m0_azscale
        = (calibrate preCalGimbal 40 10).1.motor0.az_scale
    ∧ (calibrate preCalGimbal 40 10).1.nv.m0_elscale
        = (calibrate preCalGimbal 40 10).1.motor0.el_scale
    ∧ (calibrate preCalGimbal 40 10).1.nv.m1_azscale
        = (calibrate preCalGimbal 40 10).1.motor1.az_scale
    ∧ (calibrate preCalGimbal 40 10).1.nv.m1_elscale
        = (calibrate preCalGimbal 40 10).1.motor1.el_scale :=
  calibrate_final_step preCalGimbal 40 10 rfl
    (by norm_num [azDist, preCalGimbal, baseGimbal, baseNV, mkMotor])
    (by norm_num [preCalGimbal, baseGimbal, baseNV, mkMotor])

section Preservation

theorem setMotorPosition_fst_gimbal_found (s : Gimbal) (motn : ℕ) (r : ℤ) :
    ((setMotorPosition s motn r).1).gimbal_found = s.gimbal_found := by
  simp only [setMotorPosition, setMotorAt]
  split_ifs <;> rfl

theorem setMotorPosition_az_scale (s : Gimbal) (motn : ℕ) (r : ℤ) (i : ℕ) :
    (motorAt (setMotorPosition s motn r).1 i).az_scale = (motorAt s i).az_scale := by
  simp only [setMotorPosition, setMotorAt, motorAt]
  split_ifs <;> rfl

theorem setMotorPosition_el_scale (s : Gimbal) (motn : ℕ) (r : ℤ) (i : ℕ) :
    (motorAt (setMotorPosition s motn r).1 i).el_scale = (motorAt s i).el_scale := by
  simp only [setMotorPosition, setMotorAt, motorAt]
  split_ifs <;> rfl

theorem setMotorPosition_motorAt_notIdx (s : Gimbal) (i : ℕ) (r : ℤ) :
    motorAt (setMotorPosition s i r).1 (notIdx i) = motorAt s (notIdx i) := by
  simp only [setMotorPosition, setMotorAt, motorAt, notIdx]
  split_ifs <;> simp_all

theorem setMotorPosition_motorAt_of_notIdx (s : Gimbal) (i : ℕ) (r : ℤ) :
    motorAt (setMotorPosition s (notIdx i) r).1 i = motorAt s i := by
  simp only [setMotorPosition, setMotorAt, motorAt, notIdx]
  split_ifs <;> simp_all

theorem setMotorPosition_pos_self (s : Gimbal) (motn : ℕ) (r : ℤ)
    (hm : motn ≤ 1) (hg : s.gimbal_found = true) :
    (motorAt (setMotorPosition s motn r).1 motn).pos = clampPos (motorAt s motn) r := by
  have h2 : ¬ (2 ≤ motn ∨ s.gimbal_found = false) := by
    push_neg
    exact ⟨by omega, by simp [hg]⟩
  simp only [setMotorPosition, if_neg h2, motorAt_setMotorAt_self, clampPos, if_cBool]

theorem clampPos_congr (m m' : MotorInfo) (r : ℤ)
    (hmin : m.min = m'.min) (hmax : m.max = m'.max) :
    clampPos m r = clampPos m' r := by
  unfold clampPos
  rw [hmin, hmax]

theorem reCalAz_scalars (s : Gimbal) (a : ℚ) :
    (reCalAz s a).best_azmotor = s.best_azmotor
    ∧ (reCalAz s a).gimbal_found = s.gimbal_found
    ∧ (reCalAz s a).prevstop_az = s.prevstop_az
    ∧ (reCalAz s a).prevstop_el = s.prevstop_el := by
  simp only [reCalAz, setMotorAt]
  split_ifs <;> exact ⟨rfl, rfl, rfl, rfl⟩

theorem reCalEl_scalars (s : Gimbal) (e : ℚ) :
    (reCalEl s e).best_azmotor = s.best_azmotor
    ∧ (reCalEl s e).gimbal_found = s.gimbal_found
    ∧ (reCalEl s e).prevstop_az = s.prevstop_az
    ∧ (reCalEl s e).prevstop_el = s.prevstop_el := by
  simp only [reCalEl, setMotorAt]
  split_ifs <;> exact ⟨rfl, rfl, rfl, rfl⟩

theorem reCal_scalars (s : Gimbal) (a e : ℚ) :
    (reCal s a e).best_azmotor = s.best_azmotor
    ∧ (reCal s a e).gimbal_found = s.gimbal_found := by
  unfold reCal
  have h1 := reCalEl_scalars (reCalAz s a) e
  have h2 := reCalAz_scalars s a
  exact ⟨h1.1.trans h2.1, h1.2.1.trans h2.2.1⟩

theorem reCalAz_motor_fields (s : Gimbal) (a : ℚ) (i : ℕ) :
    (motorAt (reCalAz s a) i).pos = (motorAt s i).pos
    ∧ (motorAt (reCalAz s a) i).min = (motorAt s i).min
    ∧ (motorAt (reCalAz s a) i).max = (motorAt s i).max
    ∧ (motorAt (reCalAz s a) i).atmin = (motorAt s i).atmin
    ∧ (motorAt (reCalAz s a) i).atmax = (motorAt s i).atmax
    ∧ (motorAt (reCalAz s a) i).del_pos = (motorAt s i).del_pos
    ∧ (motorAt (reCalAz s a) i).el_scale = (motorAt s i).el_scale := by
  simp only [reCalAz, setMotorAt, motorAt]
  split_ifs <;> simp_all

theorem reCalEl_motor_fields (s : Gimbal) (e : ℚ) (i : ℕ) :
    (motorAt (reCalEl s e) i).pos = (motorAt s i).pos
    ∧ (motorAt (reCalEl s e) i).min = (motorAt s i).min
    ∧ (motorAt (reCalEl s e) i).max = (motorAt s i).max
    ∧ (motorAt (reCalEl s e) i).atmin = (motorAt s i).atmin
    ∧ (motorAt (reCalEl s e) i).atmax = (motorAt s i).atmax
    ∧ (motorAt (reCalEl s e) i).del_pos = (motorAt s i).del_pos
    ∧ (motorAt (reCalEl s e) i).az_scale = (motorAt s i).az_scale := by
  simp only [reCalEl, setMotorAt, motorAt, notIdx]
  split_ifs <;> simp_all

theorem reCal_motor_fields (s : Gimbal) (a e : ℚ) (i : ℕ) :
    (motorAt (reCal s a e) i).pos = (motorAt s i).pos
    ∧ (motorAt (reCal s a e) i).min = (motorAt s i).min
    ∧ (motorAt (reCal s a e) i).max = (motorAt s i).max
    ∧ (motorAt (reCal s a e) i).atmin = (motorAt s i).atmin
    ∧ (motorAt (reCal s a e) i).atmax = (motorAt s i).atmax
    ∧ (motorAt (reCal s a e) i).del_pos = (motorAt s i).del_pos := by
  unfold reCal
  have h1 := reCalEl_motor_fields (reCalAz s a) e i
  have h2 := reCalAz_motor_fields s a i
  exact ⟨h1.1.trans h2.1, h1.2.1.trans h2.2.1, h1.2.2.1.trans h2.2.2.1,
    h1.2.2.2.1.trans h2.2.2.2.1, h1.2.2.2.2.1.trans h2.2.2.2.2.1,
    h1.2.2.2.2.2.1.trans h2.2.2.2.2.2.1⟩

theorem reCalAz_az_scale (s : Gimbal) (a : ℚ) :
    (motorAt (reCalAz s a) s.best_azmotor).az_scale =
      (if 30 ≤ fabs (azDist s.prevstop_az a)
          ∧ fabs ((((motorAt s s.best_azmotor).del_pos : ℚ) / azDist s.prevstop_az a
              - (motorAt s s.best_azmotor).az_scale)
                / (motorAt s s.best_azmotor).az_scale) < 1/10
        then ((motorAt s s.best_azmotor).del_pos : ℚ) / azDist s.prevstop_az a
        else (motorAt s s.best_azmotor).az_scale) := by
  simp only [reCalAz]
  by_cases h1 : 30 ≤ fabs (azDist s.prevstop_az a)
  · rw [if_pos h1]
    by_cases h2 : fabs ((((motorAt s s.best_azmotor).del_pos : ℚ) / azDist s.prevstop_az a
        - (motorAt s s.best_azmotor).az_scale) / (motorAt s s.best_azmotor).az_scale) < 1/10
    · rw [if_pos h2, if_pos ⟨h1, h2⟩, motorAt_setMotorAt_self]
    · rw [if_neg h2, if_neg (by tauto)]
  · rw [if_neg h1, if_neg (by tauto)]

theorem reCalEl_el_scale (s : Gimbal) (e : ℚ) :
    (motorAt (reCalEl s e) (notIdx s.best_azmotor)).el_scale =
      (if 30 ≤ fabs (e - s.prevstop_el)
          ∧ fabs ((((motorAt s (notIdx s.best_azmotor)).del_pos : ℚ) / (e - s.prevstop_el)
              - (motorAt s (notIdx s.best_azmotor)).el_scale)
                / (motorAt s (notIdx s.best_azmotor)).el_scale) < 1/10
        then ((motorAt s (notIdx s.best_azmotor)).del_pos : ℚ) / (e - s.prevstop_el)
        else (motorAt s (notIdx s.best_azmotor)).el_scale) := by
  simp only [reCalEl]
  by_cases h1 : 30 ≤ fabs (e - s.prevstop_el)
  · rw [if_pos h1]
    by_cases h2 : fabs ((((motorAt s (notIdx s.best_azmotor)).del_pos : ℚ) / (e - s.prevstop_el)
        - (motorAt s (notIdx s.best_azmotor)).el_scale)
          / (motorAt s (notIdx s.best_azmotor)).el_scale) < 1/10
    · rw [if_pos h2, if_pos ⟨h1, h2⟩, motorAt_setMotorAt_self]
    · rw [if_neg h2, if_neg (by tauto)]
  · rw [if_neg h1, if_neg (by tauto)]

theorem reCal_az_scale (s : Gimbal) (a e : ℚ) :
    (motorAt (reCal s a e) s.best_azmotor).az_scale =
      (if 30 ≤ fabs (azDist s.prevstop_az a)
          ∧ fabs ((((motorAt s s.best_azmotor).del_pos : ℚ) / azDist s.prevstop_az a
              - (motorAt s s.best_azmotor).az_scale)
                / (motorAt s s.best_azmotor).az_scale) < 1/10
        then ((motorAt s s.best_azmotor).del_pos : ℚ) / azDist s.prevstop_az a
        else (motorAt s s.best_azmotor).az_scale) := by
  unfold reCal
  have h1 := (reCalEl_motor_fields (reCalAz s a) e s.best_azmotor).2.2.2.2.2.2
  exact h1.trans (reCalAz_az_scale s a)

theorem reCal_el_scale (s : Gimbal) (a e : ℚ) :
    (motorAt (reCal s a e) (notIdx s.best_azmotor)).el_scale =
      (if 30 ≤ fabs (e - s.prevstop_el)
          ∧ fabs ((((motorAt s (notIdx s.best_azmotor)).del_pos : ℚ) / (e - s.prevstop_el)
              - (motorAt s (notIdx s.best_azmotor)).el_scale)
                / (motorAt s (notIdx s.best_azmotor)).el_scale) < 1/10
        then ((motorAt s (notIdx s.best_azmotor)).del_pos : ℚ) / (e - s.prevstop_el)
        else (motorAt s (notIdx s.best_azmotor)).el_scale) := by
  unfold reCal
  have hs := reCalAz_scalars s a
  have hm := reCalAz_motor_fields s a (notIdx s.best_azmotor)
  calc (motorAt (reCalEl (reCalAz s a) e) (notIdx s.best_azmotor)).el_scale
      = (motorAt (reCalEl (reCalAz s a) e) (notIdx (reCalAz s a).best_azmotor)).el_scale := by
        rw [hs.1]
    _ = _ := by
        rw [reCalEl_el_scale (reCalAz s a) e, hs.1, hs.2.2.2, hm.2.2.2.2.2.1,
          hm.2.2.2.2.2.2]

theorem seekTarget_az_scale (s : Gimbal) (az_t el_t az_s el_s : ℚ) (i : ℕ) :
    (motorAt (seekTarget s az_t el_t az_s el_s).1 i).az_scale
      = (motorAt (reCal s az_s el_s) i).az_scale := by
  simp only [seekTarget]
  split_ifs <;> simp only [setMotorPosition_az_scale]

theorem seekTarget_el_scale (s : Gimbal) (az_t el_t az_s el_s : ℚ) (i : ℕ) :
    (motorAt (seekTarget s az_t el_t az_s el_s).1 i).el_scale
      = (motorAt (reCal s az_s el_s) i).el_scale := by
  simp only [seekTarget]
  split_ifs <;> simp only [setMotorPosition_el_scale]

theorem moveToAzEl_settled_motor (s : Gimbal) (now : ℕ) (az_t el_t az_s el_s : ℚ)
    (hrate : ¬ now % 2 ^ 32 < (s.last_update + UPD_PERIOD) % 2 ^ 32)
    (hdom : ¬ (az_s < 0 ∨ 360 < az_s ∨ el_s < 0 ∨ 90 < el_s))
    (hsettle : fabs (azDist s.prevfast_az az_s) < MAX_SETTLE
      ∧ fabs (el_s - s.prevfast_el) < MAX_SETTLE)
    (hcal : N_INIT_STEPS ≤ s.init_step) (i : ℕ) :
    motorAt (moveToAzEl s now az_t el_t az_s el_s).1 i
      = motorAt (seekTarget { s with last_update := now % 2 ^ 32 } az_t el_t az_s el_s).1 i := by
  simp only [moveToAzEl, if_neg hrate, if_neg hdom, calibrated, if_cBool]
  rw [if_pos hsettle, if_pos hcal]
  rfl

end Preservation

/-- C5: on every settled tracking tick — rate limit passed, reading in
domain, settle detected, controller calibrated, scales non-zero (as the
invariant guarantees once calibrated; this also keeps the exact-rational
model faithful to the float division) — the azimuth motor's scale after the
tick equals `del_pos / azMove` exactly when the azimuth motion since the
last stable reading has magnitude ≥ 30° AND the candidate differs
fractionally from the current scale by less than 10%, and is otherwise
unchanged; the same rule holds independently for the elevation motor's
elevation scale using its own pulse delta and the elevation motion. -/
theorem moveToAzEl_recal_gating (s : Gimbal) (now : ℕ) (az_t el_t az_s el_s : ℚ)
    (_hb : s.best_azmotor ≤ 1)
    (hrate : ¬ now % 2 ^ 32 < (s.last_update + UPD_PERIOD) % 2 ^ 32)
    (hdom : ¬ (az_s < 0 ∨ 360 < az_s ∨ el_s < 0 ∨ 90 < el_s))
    (hsettle : fabs (azDist s.prevfast_az az_s) < MAX_SETTLE
      ∧ fabs (el_s - s.prevfast_el) < MAX_SETTLE)
    (hcal : N_INIT_STEPS ≤ s.init_step)
    (_haz : (motorAt s s.best_azmotor).az_scale ≠ 0)
    (_hel : (motorAt s (notIdx s.best_azmotor)).el_scale ≠ 0) :
    (motorAt (moveToAzEl s now az_t el_t az_s el_s).1 s.best_azmotor).az_scale
      = (if 30 ≤ fabs (azDist s.prevstop_az az_s)
            ∧ fabs ((((motorAt s s.best_azmotor).del_pos : ℚ) / azDist s.prevstop_az az_s
                - (motorAt s s.best_azmotor).az_scale)
                  / (motorAt s s.best_azmotor).az_scale) < 1/10
          then ((motorAt s s.best_azmotor).del_pos : ℚ) / azDist s.prevstop_az az_s
          else (motorAt s s.best_azmotor).az_scale)
    ∧ (motorAt (moveToAzEl s now az_t el_t az_s el_s).1 (notIdx s.best_azmotor)).el_scale
      = (if 30 ≤ fabs (el_s - s.prevstop_el)
            ∧ fabs ((((motorAt s (notIdx s.best_azmotor)).del_pos : ℚ) / (el_s - s.prevstop_el)
                - (motorAt s (notIdx s.best_azmotor)).el_scale)
                  / (motorAt s (notIdx s.best_azmotor)).el_scale) < 1/10
          then ((motorAt s (notIdx s.best_azmotor)).del_pos : ℚ) / (el_s - s.prevstop_el)
          else (motorAt s (notIdx s.best_azmotor)).el_scale) := by
  constructor
  · rw [moveToAzEl_settled_motor s now az_t el_t az_s el_s hrate hdom hsettle hcal,
      seekTarget_az_scale]
    exact reCal_az_scale { s with last_update := now % 2 ^ 32 } az_s el_s
  · rw [moveToAzEl_settled_motor s now az_t el_t az_s el_s hrate hdom hsettle hcal,
      seekTarget_el_scale]
    exact reCal_el_scale { s with last_update := now % 2 ^ 32 } az_s el_s

/-- C5 witness: the gating statement evaluated on the base state (tick time
1000, target az 20 / el 50, settled reading az 10 / el 45). -/
theorem moveToAzEl_recal_gating_witness :
    (motorAt (moveToAzEl baseGimbal 1000 20 50 10 45).1 baseGimbal.best_azmotor).az_scale
      = (if 30 ≤ fabs (azDist baseGimbal.prevstop_az 10)
            ∧ fabs ((((motorAt baseGimbal baseGimbal.best_azmotor).del_pos : ℚ)
                  / azDist baseGimbal.prevstop_az 10
                - (motorAt baseGimbal baseGimbal.best_azmotor).az_scale)
                  / (motorAt baseGimbal baseGimbal.best_azmotor).az_scale) < 1/10
          then ((motorAt baseGimbal baseGimbal.best_azmotor).del_pos : ℚ)
            / azDist baseGimbal.prevstop_az 10
          else (motorAt baseGimbal baseGimbal.best_azmotor).az_scale)
    ∧ (motorAt (moveToAzEl baseGimbal 1000 20 50 10 45).1
          (notIdx baseGimbal.best_azmotor)).el_scale
      = (if 30 ≤ fabs ((45 : ℚ) - baseGimbal.prevstop_el)
            ∧ fabs ((((motorAt baseGimbal (notIdx baseGimbal.best_azmotor)).del_pos : ℚ)
                  / ((45 : ℚ) - baseGimbal.prevstop_el)
                - (motorAt baseGimbal (notIdx baseGimbal.best_azmotor)).el_scale)
                  / (motorAt baseGimbal (notIdx baseGimbal.best_azmotor)).el_scale) < 1/10
          then ((motorAt baseGimbal (notIdx baseGimbal.best_azmotor)).del_pos : ℚ)
            / ((45 : ℚ) - baseGimbal.prevstop_el)
          else (motorAt baseGimbal (notIdx baseGimbal.best_azmotor)).el_scale) :=
  moveToAzEl_recal_gating baseGimbal 1000 20 50 10 45
    (by norm_num [baseGimbal, baseNV, mkMotor])
    (by norm_num [baseGimbal, baseNV, mkMotor, UPD_PERIOD])
    (by norm_num)
    (by norm_num [baseGimbal, baseNV, mkMotor, fabs, azDist, MAX_SETTLE])
    (by norm_num [baseGimbal, baseNV, mkMotor, N_INIT_STEPS])
    (by norm_num [baseGimbal, baseNV, mkMotor, motorAt])
    (by norm_num [baseGimbal, baseNV, mkMotor, motorAt, notIdx])

/-- C6: in every `seekTarget` tick (hardware present, valid azimuth index):
if the azimuth motor's `atmin` flag is set it is commanded to
`min + 0.9*(max-min)`; else if its `atmax` flag is set it is commanded to
`min + 0.1*(max-min)`; otherwise it is commanded to
`pos + azError*az_scale` (with the scale in effect after the tick's
recalibration). The elevation motor is always commanded to
`pos + elError*el_scale`, with no limit-avoidance branch. Each resulting
stored position is the commanded request passed through the clamping stage
(`clampPos`). -/
theorem seekTarget_limit_avoidance (s : Gimbal) (az_t el_t az_s el_s : ℚ)
    (hb : s.best_azmotor ≤ 1) (hg : s.gimbal_found = true) :
    ((motorAt s s.best_azmotor).atmin = true →
      (motorAt (seekTarget s az_t el_t az_s el_s).1 s.best_azmotor).pos
        = clampPos (motorAt s s.best_azmotor)
            (toU16 (((motorAt s s.best_azmotor).min : ℚ)
              + 9/10 * (((motorAt s s.best_azmotor).max : ℚ)
                - ((motorAt s s.best_azmotor).min : ℚ)))))
    ∧ ((motorAt s s.best_azmotor).atmin = false →
       (motorAt s s.best_azmotor).atmax = true →
      (motorAt (seekTarget s az_t el_t az_s el_s).1 s.best_azmotor).pos
        = clampPos (motorAt s s.best_azmotor)
            (toU16 (((motorAt s s.best_azmotor).min : ℚ)
              + 1/10 * (((motorAt s s.best_azmotor).max : ℚ)
                - ((motorAt s s.best_azmotor).min : ℚ)))))
    ∧ ((motorAt s s.best_azmotor).atmin = false →
       (motorAt s s.best_azmotor).atmax = false →
      (motorAt (seekTarget s az_t el_t az_s el_s).1 s.best_azmotor).pos
        = clampPos (motorAt s s.best_azmotor)
            (toU16 (((motorAt s s.best_azmotor).pos : ℚ)
              + azDist az_s az_t
                * (motorAt (reCal s az_s el_s) s.best_azmotor).az_scale)))
    ∧ (motorAt (seekTarget s az_t el_t az_s el_s).1 (notIdx s.best_azmotor)).pos
        = clampPos (motorAt s (notIdx s.best_azmotor))
            (toU16 (((motorAt s (notIdx s.best_azmotor)).pos : ℚ)
              + (el_t - el_s)
                * (motorAt (reCal s az_s el_s) (notIdx s.best_azmotor)).el_scale)) := by
  have hbest := (reCal_scalars s az_s el_s).1
  have hfound : (reCal s az_s el_s).gimbal_found = true :=
    (reCal_scalars s az_s el_s).2.trans hg
  have hmf := reCal_motor_fields s az_s el_s s.best_azmotor
  have hme := reCal_motor_fields s az_s el_s (notIdx s.best_azmotor)
  simp only [seekTarget, hbest, hmf.1, hmf.2.1, hmf.2.2.1, hmf.2.2.2.1, hmf.2.2.2.2.1]
  refine ⟨?_, ?_, ?_, ?_⟩
  · intro h1
    rw [if_pos h1, setMotorPosition_motorAt_of_notIdx,
      setMotorPosition_pos_self _ _ _ hb hfound]
    exact clampPos_congr _ _ _ hmf.2.1 hmf.2.2.1
  · intro h1 h2
    rw [if_neg (by simp [h1]), if_pos h2, setMotorPosition_motorAt_of_notIdx,
      setMotorPosition_pos_self _ _ _ hb hfound]
    exact clampPos_congr _ _ _ hmf.2.1 hmf.2.2.1
  · intro h1 h2
    rw [if_neg (by simp [h1]), if_neg (by simp [h2]),
      setMotorPosition_motorAt_of_notIdx,
      setMotorPosition_pos_self _ _ _ hb hfound]
    exact clampPos_congr _ _ _ hmf.2.1 hmf.2.2.1
  · split_ifs <;>
      (rw [setMotorPosition_pos_self _ _ _ (notIdx_le_one _)
          ((setMotorPosition_fst_gimbal_found _ _ _).trans hfound),
        setMotorPosition_motorAt_notIdx, hme.1]
       exact clampPos_congr _ _ _ hme.2.1 hme.2.2.1)

/-- C6 witness: the limit-avoidance statement evaluated on the base state
with target az 20 / el 50 and settled reading az 10 / el 45. -/
theorem seekTarget_limit_avoidance_witness :
    ((motorAt baseGimbal baseGimbal.best_azmotor).atmin = true →
      (motorAt (seekTarget baseGimbal 20 50 10 45).1 baseGimbal.best_azmotor).pos
        = clampPos (motorAt baseGimbal baseGimbal.best_azmotor)
            (toU16 (((motorAt baseGimbal baseGimbal.best_azmotor).min : ℚ)
              + 9/10 * (((motorAt baseGimbal baseGimbal.best_azmotor).max : ℚ)
                - ((motorAt baseGimbal baseGimbal.best_azmotor).min : ℚ)))))
    ∧ ((motorAt baseGimbal baseGimbal.best_azmotor).atmin = false →
       (motorAt baseGimbal baseGimbal.best_azmotor).atmax = true →
      (motorAt (seekTarget baseGimbal 20 50 10 45).1 baseGimbal.best_azmotor).pos
        = clampPos (motorAt baseGimbal baseGimbal.best_azmotor)
            (toU16 (((motorAt baseGimbal baseGimbal.best_azmotor).min : ℚ)
              + 1/10 * (((motorAt baseGimbal baseGimbal.best_azmotor).max : ℚ)
                - ((motorAt baseGimbal baseGimbal.best_azmotor).min : ℚ)))))
    ∧ ((motorAt baseGimbal baseGimbal.best_azmotor).atmin = false →
       (motorAt baseGimbal baseGimbal.best_azmotor).atmax = false →
      (motorAt (seekTarget baseGimbal 20 50 10 45).1 baseGimbal.best_azmotor).pos
        = clampPos (motorAt baseGimbal baseGimbal.best_azmotor)
            (toU16 (((motorAt baseGimbal baseGimbal.best_azmotor).pos : ℚ)
              + azDist 10 20
                * (motorAt (reCal baseGimbal 10 45) baseGimbal.best_azmotor).az_scale)))
    ∧ (motorAt (seekTarget baseGimbal 20 50 10 45).1 (notIdx baseGimbal.best_azmotor)).pos
        = clampPos (motorAt baseGimbal (notIdx baseGimbal.best_azmotor))
            (toU16 (((motorAt baseGimbal (notIdx baseGimbal.best_azmotor)).pos : ℚ)
              + ((50 : ℚ) - 45)
                * (motorAt (reCal baseGimbal 10 45) (notIdx baseGimbal.best_azmotor)).el_scale)) :=
  seekTarget_limit_avoidance baseGimbal 20 50 10 45
    (by norm_num [baseGimbal, baseNV, mkMotor]) rfl

end SatGimbal
